import Mathlib

/-!
# Verification of rustytdown against its specification

Shallow embedding of `src/lib.rs` (crate `rustytdown`). The effectful Rust
functions are modelled as pure functions over an explicit environment that
records the outcomes of the network calls, the external transcoder, and the
fallible filesystem operations; the side effects on the filesystem are
returned as an explicit operation trace.
-/

namespace RustyTDown

/-- JSON values, mirroring `serde_json::Value`. Objects are association
lists with distinct keys (serde stores a map); numbers are integers, which
suffices here since no claim inspects numeric fields. -/
inductive Json where
  | null
  | bool (b : Bool)
  | num (n : Int)
  | str (s : String)
  | arr (xs : List Json)
  | obj (fields : List (String × Json))

/-- First binding of `key` in the field list (serde maps have unique keys). -/
def lookupField : List (String × Json) → String → Option Json
  | [], _ => none
  | (k, v) :: rest, key => if k = key then some v else lookupField rest key

/-- `Value::get` with a string index: a lookup on objects, `None` otherwise. -/
def Json.get : Json → String → Option Json
  | .obj fields, key => lookupField fields key
  | _, _ => none

/-- `value[key]` (the `Index` impl of `serde_json::Value` for `&str`):
yields `Value::Null` when the key is missing or the value is not an object. -/
def Json.idx (j : Json) (key : String) : Json :=
  (j.get key).getD .null

/-- `Value::as_array`. -/
def Json.asArr : Json → Option (List Json)
  | .arr xs => some xs
  | _ => none

/-- `Value::as_str`. -/
def Json.asStr : Json → Option String
  | .str s => some s
  | _ => none

/-- The crate's error enum (`lib.rs` lines 17-30). Each variant carries the
display payload; `client` holds a `reqwest::Error` message, `ioError` an
`std::io::Error` message. -/
inductive Error where
  | client (msg : String)
  | ioError (msg : String)
  | api (msg : String)
  | conversion (msg : String)
deriving DecidableEq

/-- `formats.iter().filter_map(|format| format["url"].as_str()).next()`
(`lib.rs` lines 129-132). -/
def firstUrl (fs : List Json) : Option String :=
  fs.findSome? fun f => (Json.idx f "url").asStr

/-- The URL-selection stage of `get_video_url` (`lib.rs` lines 129-136):
first format entry whose `url` field is a string, else
`Error::Api("No valid URL found")`. -/
def selectUrl (fs : List Json) : Except Error String :=
  match firstUrl fs with
  | some u => .ok u
  | none => .error (.api "No valid URL found")

/-- `streaming_data["formats"].as_array().or_else(||
streaming_data["adaptiveFormats"].as_array())` (`lib.rs` lines 124-126);
the closure of `or_else` runs only when the first operand is `None`. -/
def resolveFormats (sd : Json) : Option (List Json) :=
  match (Json.idx sd "formats").asArr with
  | some a => some a
  | none => (Json.idx sd "adaptiveFormats").asArr

/-- The JSON-parsing stage of `get_video_url` (`lib.rs` lines 118-136),
applied to the decoded response body. -/
def parse_video_url (json : Json) : Except Error String :=
  match json.get "streamingData" with
  | none => .error (.api "No streamingData found in response")
  | some sd =>
    match resolveFormats sd with
    | none => .error (.api "No formats or adaptiveFormats found")
    | some formats => selectUrl formats

/-- The player-API response as observed by `get_video_url`: HTTP status
code, the body as text, and the body decoded as JSON (`none` when the body
is not valid JSON, in which case `response.json()` fails with a
`reqwest::Error`, converted to `Error::Client`). -/
structure MetaResponse where
  status : Nat
  bodyText : String
  jsonBody : Option Json

/-- `get_video_url` (`lib.rs` lines 66-137) from the received response on:
a non-success status (`StatusCode::is_success` is `200..=299`) yields
`Error::Api` carrying the status and the body text; otherwise the body is
decoded as JSON and parsed. The status renders as its numeric code. -/
def get_video_url (resp : MetaResponse) : Except Error String :=
  if ¬ (200 ≤ resp.status ∧ resp.status < 300) then
    .error (.api ("API request failed with status: " ++ toString resp.status
      ++ " - Body: " ++ resp.bodyText))
  else
    match resp.jsonBody with
    | none => .error (.client "error decoding response body")
    | some j => parse_video_url j

/-- Filesystem-visible actions of the download/convert functions, in program
order. `ffmpegRun input output code` records the transcoder invocation
(`ffmpeg -i input -vn -acodec flac -compression_level 8 -y output`), which
writes `output` when it exits with code 0. -/
inductive FsOp where
  | create (path : String)
  | write (path : String) (bytes : List Nat)
  | remove (path : String)
  | ffmpegRun (input : String) (output : String) (exitCode : Nat)
deriving DecidableEq

/-- The media (GET) response: `Content-Length` header if present, and the
byte stream delivered as a finite list of chunks, each either bytes or a
transport error message (`reqwest::Error`). -/
structure MediaResponse where
  contentLength : Option Nat
  chunks : List (Except String (List Nat))

/-- Environment fixing the outcome of each effect a run performs:
the `get_video_url` call, the media GET, `File::create`, the
`Command::status()` call for ffmpeg (error = spawn failure, ok = exit code;
`ExitStatus::success()` is exit code 0), and `remove_file`. -/
structure Env where
  urlResult : Except Error String
  mediaResult : Except Error MediaResponse
  createResult : Except String Unit
  ffmpegExit : Except String Nat
  removeResult : Except String Unit

/-- `res.content_length().unwrap_or(0)` (`lib.rs` line 182 / 269 / 324). -/
def totalSize (res : MediaResponse) : Nat :=
  res.contentLength.getD 0

/-- The download loop (`lib.rs` lines 187-194): for each chunk, a transport
error propagates as `Error::Client` (the `?` on `chunk`); otherwise the
`u64` counter `downloaded` advances by the chunk length (wrapping mod 2^64)
and the chunk is written to the file. Returns the final file content and
counter, plus the write trace. -/
def downloadLoop (path : String) :
    List (Except String (List Nat)) → Nat → List Nat →
      Except Error (List Nat × Nat) × List FsOp
  | [], downloaded, content => (.ok (content, downloaded), [])
  | c :: rest, downloaded, content =>
    match c with
    | .error e => (.error (.client e), [])
    | .ok bytes =>
      let d := (downloaded + bytes.length) % 2 ^ 64
      let step := downloadLoop path rest d (content ++ bytes)
      (step.1, FsOp.write path bytes :: step.2)

/-- Outcome of one run of a download function: returned value, filesystem
trace, and the final progress-bar length (`ProgressBar::new(0)` then
`pb.set_length(total_size)` once the media response arrives; 0 when the run
ends before that point). -/
structure Run where
  ret : Except Error String
  ops : List FsOp
  pbLen : Nat

/-- `download_and_convert` (`lib.rs` lines 154-226): resolve the URL, GET
it, create `<id>.mp4`, stream the body into it, run ffmpeg to `<id>.flac`;
a non-zero ffmpeg exit yields `Error::Conversion` and returns before the
`remove_file`; on exit 0 the `.mp4` is removed and the `.flac` path
returned. -/
def download_and_convert (videoId : String) (env : Env) : Run :=
  let video_path := videoId ++ ".mp4"
  let audio_path := videoId ++ ".flac"
  match env.urlResult with
  | .error e => ⟨.error e, [], 0⟩
  | .ok _url =>
    match env.mediaResult with
    | .error e => ⟨.error e, [], 0⟩
    | .ok res =>
      let total := totalSize res
      match env.createResult with
      | .error e => ⟨.error (.ioError e), [], total⟩
      | .ok _ =>
        match downloadLoop video_path res.chunks 0 [] with
        | (.error e, ops) => ⟨.error e, FsOp.create video_path :: ops, total⟩
        | (.ok _, ops) =>
          match env.ffmpegExit with
          | .error e =>
            ⟨.error (.ioError e), FsOp.create video_path :: ops, total⟩
          | .ok code =>
            let ops' := FsOp.create video_path :: ops
              ++ [FsOp.ffmpegRun video_path audio_path code]
            if code = 0 then
              match env.removeResult with
              | .error e => ⟨.error (.ioError e), ops', total⟩
              | .ok _ =>
                ⟨.ok audio_path, ops' ++ [FsOp.remove video_path], total⟩
            else
              ⟨.error (.conversion "Failed to convert video to audio"),
                ops', total⟩

/-- `download_video` (`lib.rs` lines 243-287): resolve the URL, GET it,
create `<id>.mp4`, stream the body into it, return the `.mp4` path. -/
def download_video (videoId : String) (env : Env) : Run :=
  let video_path := videoId ++ ".mp4"
  match env.urlResult with
  | .error e => ⟨.error e, [], 0⟩
  | .ok _url =>
    match env.mediaResult with
    | .error e => ⟨.error e, [], 0⟩
    | .ok res =>
      let total := totalSize res
      match env.createResult with
      | .error e => ⟨.error (.ioError e), [], total⟩
      | .ok _ =>
        match downloadLoop video_path res.chunks 0 [] with
        | (.error e, ops) => ⟨.error e, FsOp.create video_path :: ops, total⟩
        | (.ok _, ops) => ⟨.ok video_path, FsOp.create video_path :: ops, total⟩

/-- `stream_video` (`lib.rs` lines 310-327): resolve the URL, GET it, and
return the body stream with each transport error wrapped in `Error::Client`
(`map_err(Error::Client)`), paired with `content_length().unwrap_or(0)`. -/
def stream_video (env : Env) :
    Except Error (List (Except Error (List Nat)) × Nat) :=
  match env.urlResult with
  | .error e => .error e
  | .ok _url =>
    match env.mediaResult with
    | .error e => .error e
    | .ok res =>
      .ok (res.chunks.map (Except.mapError Error.client), totalSize res)

/-- Effect of one trace operation on the set of existing paths (a list used
as a set): `File::create` and writes ensure the file exists, `remove_file`
deletes it, and an ffmpeg run with exit code 0 produces its output file. -/
def applyOp (fs : List String) : FsOp → List String
  | .create p => if p ∈ fs then fs else p :: fs
  | .write p _ => if p ∈ fs then fs else p :: fs
  | .remove p => fs.filter (fun q => q ≠ p)
  | .ffmpegRun _ outp code =>
    if code = 0 then (if outp ∈ fs then fs else outp :: fs) else fs

/-- Runs a trace of filesystem operations, in order. -/
def applyOps (ops : List FsOp) (fs : List String) : List String :=
  ops.foldl applyOp fs

/-- Sum of the chunk lengths of a fully delivered stream. -/
def sumLens (css : List (List Nat)) : Nat :=
  (css.map List.length).sum

/-- The selection rule as the spec words it: the first format entry whose
`url` field is a non-empty string. Stated only for comparison with the
code's `firstUrl`. -/
def firstNonEmptyUrl (fs : List Json) : Option String :=
  fs.findSome? fun f =>
    match (Json.idx f "url").asStr with
    | some s => if s = "" then none else some s
    | none => none

/-- A formats array whose first entry carries an empty-string `url` and
whose second carries `url = "a"`. -/
def emptyUrlFirstFormats : List Json :=
  [.obj [("url", .str "")], .obj [("url", .str "a")]]

/-- A player response whose `streamingData.formats` is
`emptyUrlFirstFormats`. -/
def emptyUrlFirstJson : Json :=
  .obj [("streamingData", .obj [("formats", .arr emptyUrlFirstFormats)])]

theorem firstUrl_eq_none {fs : List Json}
    (h : ∀ f ∈ fs, (Json.idx f "url").asStr = none) : firstUrl fs = none := by
  induction fs with
  | nil => rfl
  | cons f rest ih =>
    have hf := h f (List.mem_cons_self f rest)
    have hrest : firstUrl rest = none :=
      ih fun g hg => h g (List.mem_cons_of_mem f hg)
    simp only [firstUrl, List.findSome?] at hrest ⊢
    rw [hf]
    exact hrest

/-- **C2** — a `streamingData` object with neither `formats` nor
`adaptiveFormats` a JSON array makes `get_video_url` fail with
`Error::Api("No formats or adaptiveFormats found")`. -/
theorem C2_missing_formats_error (json sd : Json)
    (hget : json.get "streamingData" = some sd)
    (hf : (Json.idx sd "formats").asArr = none)
    (ha : (Json.idx sd "adaptiveFormats").asArr = none) :
    parse_video_url json = .error (.api "No formats or adaptiveFormats found") := by
  simp only [parse_video_url, hget, resolveFormats, hf, ha]

/-- Witness for C2: a response whose `streamingData` is an empty object. -/
theorem C2_missing_formats_error_witness :
    parse_video_url (.obj [("streamingData", .obj [])]) =
      .error (.api "No formats or adaptiveFormats found") :=
  C2_missing_formats_error _ (.obj []) rfl rfl rfl

/-- **C3** — when the resolved `formats` array has no entry with a
string-valued `url`, `get_video_url` fails with
`Error::Api("No valid URL found")`. -/
theorem C3_no_valid_url_error (json sd : Json) (fs : List Json)
    (hget : json.get "streamingData" = some sd)
    (hf : (Json.idx sd "formats").asArr = some fs)
    (hall : ∀ f ∈ fs, (Json.idx f "url").asStr = none) :
    parse_video_url json = .error (.api "No valid URL found") := by
  simp only [parse_video_url, hget, resolveFormats, hf, selectUrl,
    firstUrl_eq_none hall]

/-- Witness for C3: one format entry whose `url` field is a number. -/
theorem C3_no_valid_url_error_witness :
    parse_video_url
        (.obj [("streamingData",
          .obj [("formats", .arr [.obj [("url", .num 5)]])])]) =
      .error (.api "No valid URL found") := by
  refine C3_no_valid_url_error _ _ [.obj [("url", .num 5)]] rfl rfl ?_
  intro f hf
  rw [List.mem_singleton] at hf
  subst hf
  rfl

/-- **C4** — when `streamingData.formats` is absent, `get_video_url` reads
the format entries from `streamingData.adaptiveFormats` instead. -/
theorem C4_adaptive_formats_fallback (json sd : Json) (afs : List Json)
    (hget : json.get "streamingData" = some sd)
    (hf : sd.get "formats" = none)
    (ha : (Json.idx sd "adaptiveFormats").asArr = some afs) :
    parse_video_url json = selectUrl afs := by
  have hidx : (Json.idx sd "formats").asArr = none := by
    simp [Json.idx, hf, Json.asArr]
  simp only [parse_video_url, hget, resolveFormats, hidx, ha]

/-- Witness for C4: no `formats` key, one adaptive format with a URL. -/
theorem C4_adaptive_formats_fallback_witness :
    parse_video_url
        (.obj [("streamingData",
          .obj [("adaptiveFormats", .arr [.obj [("url", .str "u1")]])])]) =
      .ok "u1" :=
  C4_adaptive_formats_fallback _ _ [.obj [("url", .str "u1")]] rfl rfl rfl

/-- **C10** — when `streamingData.formats` is a JSON array (even empty),
the result is determined by that array alone (`adaptiveFormats` is never
consulted), and an empty `formats` array fails with
`Error::Api("No valid URL found")`. -/
theorem C10_formats_array_shadows_adaptive (json sd : Json) (fs : List Json)
    (hget : json.get "streamingData" = some sd)
    (hf : (Json.idx sd "formats").asArr = some fs) :
    parse_video_url json = selectUrl fs ∧
      (fs = [] → parse_video_url json = .error (.api "No valid URL found")) := by
  have heq : parse_video_url json = selectUrl fs := by
    simp only [parse_video_url, hget, resolveFormats, hf]
  refine ⟨heq, fun hnil => ?_⟩
  subst hnil
  exact heq

/-- Witness for C10: empty `formats` next to a usable `adaptiveFormats`
entry still fails with "No valid URL found". -/
theorem C10_formats_array_shadows_adaptive_witness :
    parse_video_url
        (.obj [("streamingData",
          .obj [("formats", .arr []),
            ("adaptiveFormats", .arr [.obj [("url", .str "good")]])])]) =
        selectUrl [] ∧
      (([] : List Json) = [] →
        parse_video_url
          (.obj [("streamingData",
            .obj [("formats", .arr []),
              ("adaptiveFormats", .arr [.obj [("url", .str "good")]])])]) =
          .error (.api "No valid URL found")) :=
  C10_formats_array_shadows_adaptive _ _ [] rfl rfl

/-- Counterexample to **C1** as stated: in `emptyUrlFirstJson` the first
entry with a non-empty string `url` holds `"a"`, but `get_video_url`
returns `""`, the url of the first entry whose `url` is any string. -/
theorem C1_counterexample :
    firstNonEmptyUrl emptyUrlFirstFormats = some "a" ∧
      parse_video_url emptyUrlFirstJson = .ok "" ∧ ("" : String) ≠ "a" :=
  ⟨rfl, rfl, by decide⟩

/-- **C1 (amended)** — when `streamingData.formats` is an array containing
an entry whose `url` field is a string (possibly empty), `get_video_url`
returns the `url` of the first such entry; no ranking by quality or
bitrate is applied. -/
theorem C1_first_string_url (json sd : Json) (fs : List Json) (u : String)
    (hget : json.get "streamingData" = some sd)
    (hf : (Json.idx sd "formats").asArr = some fs)
    (hu : firstUrl fs = some u) :
    parse_video_url json = .ok u := by
  simp only [parse_video_url, hget, resolveFormats, hf, selectUrl, hu]

/-- Witness for C1 (amended), on the very input that refutes the original
wording: the first string-valued `url` is the empty string. -/
theorem C1_first_string_url_witness :
    parse_video_url emptyUrlFirstJson = .ok "" :=
  C1_first_string_url emptyUrlFirstJson _ emptyUrlFirstFormats "" rfl rfl rfl

/-- **C6** — a non-success status on the player request yields an
`Error::Api` whose message carries the status code and the body text, and
the result is the same whether or not the body decodes as JSON (the body is
never parsed on this path). -/
theorem C6_non_success_status (st : Nat) (body : String) (jb jb' : Option Json)
    (h : ¬ (200 ≤ st ∧ st < 300)) :
    get_video_url ⟨st, body, jb⟩ =
        .error (.api ("API request failed with status: " ++ toString st
          ++ " - Body: " ++ body)) ∧
      get_video_url ⟨st, body, jb⟩ = get_video_url ⟨st, body, jb'⟩ := by
  constructor <;> simp [get_video_url, h]

/-- Witness for C6: a 404 with body "oops"; the body may be unparseable
(`none`) or valid JSON, with the same result. -/
theorem C6_non_success_status_witness :
    get_video_url ⟨404, "oops", none⟩ =
        .error (.api ("API request failed with status: " ++ toString 404
          ++ " - Body: " ++ "oops")) ∧
      get_video_url ⟨404, "oops", none⟩ = get_video_url ⟨404, "oops", some .null⟩ :=
  C6_non_success_status 404 "oops" none (some .null) (by decide)

theorem downloadLoop_map_ok (path : String) (css : List (List Nat)) :
    ∀ (d : Nat) (acc : List Nat), d < 2 ^ 64 →
      downloadLoop path (css.map Except.ok) d acc =
        (.ok (acc ++ css.flatten, (d + sumLens css) % 2 ^ 64),
          css.map fun c => FsOp.write path c) := by
  induction css with
  | nil =>
    intro d acc hd
    simp only [List.map_nil, downloadLoop, sumLens, List.sum_nil,
      Nat.add_zero, List.flatten_nil, List.append_nil, Nat.mod_eq_of_lt hd]
  | cons c rest ih =>
    intro d acc hd
    have hd' : (d + c.length) % 2 ^ 64 < 2 ^ 64 :=
      Nat.mod_lt _ (Nat.two_pow_pos 64)
    simp only [List.map_cons, downloadLoop, ih _ _ hd']
    rw [Nat.mod_add_mod]
    simp [sumLens, List.append_assoc, Nat.add_assoc]

/-- **C5** — a fully delivered chunk stream makes the download loop write
exactly the chunks, in order, leaving the file content equal to their
concatenation and the `downloaded` counter equal to the sum of their
lengths (which is assumed to fit in the `u64` counter). -/
theorem C5_download_loop_accumulates (path : String) (css : List (List Nat))
    (h : sumLens css < 2 ^ 64) :
    downloadLoop path (css.map Except.ok) 0 [] =
      (.ok (css.flatten, sumLens css), css.map fun c => FsOp.write path c) := by
  rw [downloadLoop_map_ok path css 0 [] (Nat.two_pow_pos 64), Nat.zero_add,
    Nat.mod_eq_of_lt h, List.nil_append]

/-- Witness for C5: three bytes over two chunks. -/
theorem C5_download_loop_accumulates_witness :
    downloadLoop "v.mp4" ([[1, 2], [3]].map Except.ok) 0 [] =
      (.ok ([[1, 2], [3]].flatten, sumLens [[1, 2], [3]]),
        [[1, 2], [3]].map fun c => FsOp.write "v.mp4" c) :=
  C5_download_loop_accumulates "v.mp4" [[1, 2], [3]] (by decide)

theorem remove_not_mem_downloadLoop (path q : String) :
    ∀ (chunks : List (Except String (List Nat))) (d : Nat) (acc : List Nat),
      FsOp.remove q ∉ (downloadLoop path chunks d acc).2 := by
  intro chunks
  induction chunks with
  | nil => intro d acc; simp [downloadLoop]
  | cons c rest ih =>
    intro d acc
    cases c with
    | error e => simp [downloadLoop]
    | ok bytes => simp [downloadLoop, ih]

/-- **C7** — when the downloaded stream is complete and ffmpeg exits with a
non-zero code, `download_and_convert` returns `Error::Conversion` and its
trace never removes `<id>.mp4`; conversely, in any run whatsoever, a
`remove <id>.mp4` in the trace implies the transcoder exited with code 0. -/
theorem C7_failed_convert_keeps_mp4 :
    (∀ (id u : String) (env : Env) (res : MediaResponse)
        (css : List (List Nat)) (c : Nat),
      env.urlResult = .ok u → env.mediaResult = .ok res →
      res.chunks = css.map Except.ok → env.createResult = .ok () →
      env.ffmpegExit = .ok c → c ≠ 0 →
      (download_and_convert id env).ret =
          .error (.conversion "Failed to convert video to audio") ∧
        FsOp.remove (id ++ ".mp4") ∉ (download_and_convert id env).ops) ∧
    ∀ (id : String) (env : Env),
      FsOp.remove (id ++ ".mp4") ∈ (download_and_convert id env).ops →
      env.ffmpegExit = .ok 0 := by
  constructor
  · intro id u env res css c hu hm hc hcr hf hc0
    simp only [download_and_convert, hu, hm, hcr, hc,
      downloadLoop_map_ok _ css 0 [] (Nat.two_pow_pos 64), hf, if_neg hc0]
    refine ⟨trivial, ?_⟩
    simp [List.mem_cons, List.mem_append, List.mem_map]
  · intro id env h
    obtain ⟨ur, mr, cr, fe, rr⟩ := env
    cases ur with
    | error e => simp [download_and_convert] at h
    | ok u =>
      cases mr with
      | error e => simp [download_and_convert] at h
      | ok res =>
        cases cr with
        | error e => simp [download_and_convert] at h
        | ok uu =>
          rcases hdl : downloadLoop (id ++ ".mp4") res.chunks 0 [] with ⟨r, ops⟩
          have hops : FsOp.remove (id ++ ".mp4") ∉ ops := by
            have hgen :=
              remove_not_mem_downloadLoop (id ++ ".mp4") (id ++ ".mp4")
                res.chunks 0 []
            rw [hdl] at hgen
            exact hgen
          cases r with
          | error e => simp [download_and_convert, hdl, hops] at h
          | ok v =>
            cases fe with
            | error e => simp [download_and_convert, hdl, hops] at h
            | ok code =>
              by_cases hcode : code = 0
              · subst hcode
                cases rr with
                | error e => simp [download_and_convert, hdl, hops] at h
                | ok _ => rfl
              · simp [download_and_convert, hdl, hcode, hops] at h

/-- Witness for C7 (first part): a one-chunk download followed by
ffmpeg exiting with code 1. -/
theorem C7_failed_convert_keeps_mp4_witness :
    (download_and_convert "v"
          ⟨.ok "u", .ok ⟨some 1, [.ok [7]]⟩, .ok (), .ok 1, .ok ()⟩).ret =
        .error (.conversion "Failed to convert video to audio") ∧
      FsOp.remove ("v" ++ ".mp4") ∉
        (download_and_convert "v"
          ⟨.ok "u", .ok ⟨some 1, [.ok [7]]⟩, .ok (), .ok 1, .ok ()⟩).ops :=
  C7_failed_convert_keeps_mp4.1 "v" "u" _ ⟨some 1, [.ok [7]]⟩ [[7]] 1
    rfl rfl rfl rfl rfl (by decide)

theorem flac_ne_mp4 (id : String) : id ++ ".flac" ≠ id ++ ".mp4" := by
  intro h
  have h2 := congrArg String.length h
  simp only [String.length_append] at h2
  have h3 : (".flac".length : Nat) = ".mp4".length := by omega
  exact absurd h3 (by decide)

theorem mem_applyOp_create (p : String) (fs : List String) :
    p ∈ applyOp fs (.create p) := by
  by_cases h : p ∈ fs <;> simp [applyOp, h]

theorem mem_applyOp_ffmpeg_self (inp outp : String) (fs : List String) :
    outp ∈ applyOp fs (.ffmpegRun inp outp 0) := by
  by_cases h : outp ∈ fs <;> simp [applyOp, h]

theorem mem_applyOp_remove_iff (q p : String) (fs : List String) :
    q ∈ applyOp fs (.remove p) ↔ q ∈ fs ∧ q ≠ p := by
  simp [applyOp, List.mem_filter]

theorem applyOps_writes_of_mem (p : String) (css : List (List Nat)) :
    ∀ fs : List String, p ∈ fs →
      applyOps (css.map fun c => FsOp.write p c) fs = fs := by
  induction css with
  | nil => intro fs _; rfl
  | cons c rest ih =>
    intro fs hp
    simp only [List.map_cons, applyOps, List.foldl_cons]
    rw [show applyOp fs (FsOp.write p c) = fs from by simp [applyOp, hp]]
    exact ih fs hp

/-- **C8** — a successful `download_video` run returns the path
`<id>.mp4` and leaves that file on disk; a successful
`download_and_convert` run returns `<id>.flac`, which exists afterwards,
while `<id>.mp4` does not. -/
theorem C8_artifact_paths (id u u' : String) (env env' : Env)
    (res res' : MediaResponse) (css css' : List (List Nat))
    (fs0 fs0' : List String)
    (h1 : env.urlResult = .ok u) (h2 : env.mediaResult = .ok res)
    (h3 : res.chunks = css.map Except.ok) (h4 : env.createResult = .ok ())
    (g1 : env'.urlResult = .ok u') (g2 : env'.mediaResult = .ok res')
    (g3 : res'.chunks = css'.map Except.ok) (g4 : env'.createResult = .ok ())
    (g5 : env'.ffmpegExit = .ok 0) (g6 : env'.removeResult = .ok ()) :
    (download_video id env).ret = .ok (id ++ ".mp4") ∧
      (id ++ ".mp4") ∈ applyOps (download_video id env).ops fs0 ∧
      (download_and_convert id env').ret = .ok (id ++ ".flac") ∧
      (id ++ ".flac") ∈ applyOps (download_and_convert id env').ops fs0' ∧
      (id ++ ".mp4") ∉ applyOps (download_and_convert id env').ops fs0' := by
  have hdv : download_video id env =
      ⟨.ok (id ++ ".mp4"),
        FsOp.create (id ++ ".mp4") ::
          (css.map fun c => FsOp.write (id ++ ".mp4") c),
        totalSize res⟩ := by
    simp only [download_video, h1, h2, h4, h3,
      downloadLoop_map_ok _ css 0 [] (Nat.two_pow_pos 64)]
  have hdc : download_and_convert id env' =
      ⟨.ok (id ++ ".flac"),
        (FsOp.create (id ++ ".mp4") ::
          ((css'.map fun c => FsOp.write (id ++ ".mp4") c)
            ++ [FsOp.ffmpegRun (id ++ ".mp4") (id ++ ".flac") 0]))
          ++ [FsOp.remove (id ++ ".mp4")],
        totalSize res'⟩ := by
    simp only [download_and_convert, g1, g2, g4, g3,
      downloadLoop_map_ok _ css' 0 [] (Nat.two_pow_pos 64), g5, g6, if_pos]
    simp [List.cons_append, List.append_assoc]
  have hmem : (id ++ ".mp4") ∈ applyOp fs0 (.create (id ++ ".mp4")) :=
    mem_applyOp_create _ _
  have hmem' : (id ++ ".mp4") ∈ applyOp fs0' (.create (id ++ ".mp4")) :=
    mem_applyOp_create _ _
  refine ⟨by rw [hdv], ?_, by rw [hdc], ?_, ?_⟩
  · rw [hdv]
    simp only [applyOps, List.foldl_cons]
    rw [show List.foldl applyOp (applyOp fs0 (.create (id ++ ".mp4")))
        (css.map fun c => FsOp.write (id ++ ".mp4") c) =
        applyOp fs0 (.create (id ++ ".mp4")) from
      applyOps_writes_of_mem _ css _ hmem]
    exact hmem
  · rw [hdc]
    simp only [applyOps, List.foldl_cons, List.foldl_append, List.foldl_nil]
    rw [show List.foldl applyOp (applyOp fs0' (.create (id ++ ".mp4")))
        (css'.map fun c => FsOp.write (id ++ ".mp4") c) =
        applyOp fs0' (.create (id ++ ".mp4")) from
      applyOps_writes_of_mem _ css' _ hmem']
    exact (mem_applyOp_remove_iff _ _ _).mpr
      ⟨mem_applyOp_ffmpeg_self _ _ _, flac_ne_mp4 id⟩
  · rw [hdc]
    simp only [applyOps, List.foldl_cons, List.foldl_append, List.foldl_nil]
    intro hmemf
    exact absurd ((mem_applyOp_remove_iff _ _ _).mp hmemf).2 (by simp)

/-- Witness for C8: both runs succeed on a one-chunk stream against an
initially empty filesystem. -/
theorem C8_artifact_paths_witness :
    (download_video "v" ⟨.ok "u", .ok ⟨some 1, [.ok [7]]⟩, .ok (), .ok 0,
          .ok ()⟩).ret = .ok ("v" ++ ".mp4") ∧
      ("v" ++ ".mp4") ∈ applyOps (download_video "v"
        ⟨.ok "u", .ok ⟨some 1, [.ok [7]]⟩, .ok (), .ok 0, .ok ()⟩).ops [] ∧
      (download_and_convert "v" ⟨.ok "u", .ok ⟨some 1, [.ok [7]]⟩, .ok (),
          .ok 0, .ok ()⟩).ret = .ok ("v" ++ ".flac") ∧
      ("v" ++ ".flac") ∈ applyOps (download_and_convert "v"
        ⟨.ok "u", .ok ⟨some 1, [.ok [7]]⟩, .ok (), .ok 0, .ok ()⟩).ops [] ∧
      ("v" ++ ".mp4") ∉ applyOps (download_and_convert "v"
        ⟨.ok "u", .ok ⟨some 1, [.ok [7]]⟩, .ok (), .ok 0, .ok ()⟩).ops [] :=
  C8_artifact_paths "v" "u" "u" _ _ ⟨some 1, [.ok [7]]⟩ ⟨some 1, [.ok [7]]⟩
    [[7]] [[7]] [] [] rfl rfl rfl rfl rfl rfl rfl rfl rfl rfl

/-- **C9** — a media response with no `Content-Length` makes
`stream_video` report 0 as the total size and the download functions set
the progress-bar length to 0; the absent length never causes a failure. -/
theorem C9_no_content_length (env : Env) (res : MediaResponse) (u id : String)
    (hu : env.urlResult = .ok u) (hm : env.mediaResult = .ok res)
    (hl : res.contentLength = none) :
    stream_video env = .ok (res.chunks.map (Except.mapError Error.client), 0) ∧
      (download_video id env).pbLen = 0 ∧
      (download_and_convert id env).pbLen = 0 := by
  have ht : totalSize res = 0 := by simp [totalSize, hl]
  refine ⟨?_, ?_, ?_⟩
  · simp [stream_video, hu, hm, ht]
  · rcases hcr : env.createResult with e | uu
    · simp [download_video, hu, hm, hcr, ht]
    · rcases hdl : downloadLoop (id ++ ".mp4") res.chunks 0 [] with ⟨r, ops⟩
      cases r with
      | error e => simp [download_video, hu, hm, hcr, hdl, ht]
      | ok v => simp [download_video, hu, hm, hcr, hdl, ht]
  · rcases hcr : env.createResult with e | uu
    · simp [download_and_convert, hu, hm, hcr, ht]
    · rcases hdl : downloadLoop (id ++ ".mp4") res.chunks 0 [] with ⟨r, ops⟩
      cases r with
      | error e => simp [download_and_convert, hu, hm, hcr, hdl, ht]
      | ok v =>
        rcases hfe : env.ffmpegExit with e | code
        · simp [download_and_convert, hu, hm, hcr, hdl, hfe, ht]
        · by_cases hcode : code = 0
          · subst hcode
            rcases hrr : env.removeResult with e | uu2
            · simp [download_and_convert, hu, hm, hcr, hdl, hfe, hrr, ht]
            · simp [download_and_convert, hu, hm, hcr, hdl, hfe, hrr, ht]
          · simp [download_and_convert, hu, hm, hcr, hdl, hfe, hcode, ht]

/-- Witness for C9: a response with `Content-Length` absent. -/
theorem C9_no_content_length_witness :
    stream_video ⟨.ok "u", .ok ⟨none, [.ok [1]]⟩, .ok (), .ok 0, .ok ()⟩ =
        .ok (([.ok [1]] : List (Except String (List Nat))).map
          (Except.mapError Error.client), 0) ∧
      (download_video "v"
        ⟨.ok "u", .ok ⟨none, [.ok [1]]⟩, .ok (), .ok 0, .ok ()⟩).pbLen = 0 ∧
      (download_and_convert "v"
        ⟨.ok "u", .ok ⟨none, [.ok [1]]⟩, .ok (), .ok 0, .ok ()⟩).pbLen = 0 :=
  C9_no_content_length _ ⟨none, [.ok [1]]⟩ "u" "v" rfl rfl rfl

end RustyTDown
